import Mathlib

/-!
Verification of the syslog returner module (src/_returners/logging.py).

The module is shallowly embedded: Python dictionaries become association
lists over a small universe of Python values, the external host libraries
(salt configuration resolution, the standard logging library, JSON
serialization) are modelled explicitly, and the side-effecting delivery
path of `returner` is embedded as a pure function producing a trace of
effects.
-/

/-- A small universe of Python values, covering every value the module's
option maps and job ids can take.  `pyBool` is kept distinct from `pyInt`
but, as in Python, a bool is an instance of `int`. -/
inductive PyVal where
  | pyInt : Int → PyVal
  | pyStr : String → PyVal
  | pyBool : Bool → PyVal
  | pyNone : PyVal
  | pyStrList : List String → PyVal
  deriving DecidableEq, Repr

open PyVal

/-- A Python dict with string keys, as an association list (first binding
wins, matching the fact that the dicts built here bind each key once). -/
abbrev PyDict := List (String × PyVal)

/-- Python dict lookup: the value bound to `k`, if any. -/
def lookup (d : PyDict) (k : String) : Option PyVal :=
  match d.find? (fun kv => kv.fst == k) with
  | some kv => some kv.snd
  | none => Option.none

/-- Python `k in d`. -/
def hasKey (d : PyDict) (k : String) : Bool :=
  (lookup d k).isSome

/-- Python `d.get(k)` (and `d[k]` under a presence guard): `None` when the
key is absent. -/
def pyGet (d : PyDict) (k : String) : PyVal :=
  (lookup d k).getD PyVal.pyNone

/-- Python `isinstance(v, int)`.  A Python `bool` is a subclass of `int`,
so it passes this check. -/
def isInstanceInt : PyVal → Bool
  | pyInt _ => true
  | pyBool _ => true
  | _ => false

/-- Python `isinstance(v, six.string_types)` (on Python 3: `str`). -/
def isInstanceStr : PyVal → Bool
  | pyStr _ => true
  | _ => false

/-- Python `len(v)` for the values it is applied to here (only ever
reached on strings, after an `isinstance` guard). -/
def pyLen : PyVal → Nat
  | pyStr s => s.length
  | pyStrList l => l.length
  | _ => 0

/-- `_verify_options` from src/_returners/logging.py lines 111-133.
The port sanity check inspects the key `'port'` (exactly as written in
the source; note the source never builds a dict with that key), then the
tag sanity check requires `options['tag']`, when present, to be a string
of at most 32 characters.  Each failing check returns `False` early. -/
def _verify_options (options : PyDict) : Bool :=
  -- Sanity check port
  if hasKey options "port" && !(isInstanceInt (pyGet options "port")) then
    false
  -- Sanity check tag
  else if hasKey options "tag" && !(isInstanceStr (pyGet options "tag")) then
    false
  else if hasKey options "tag" && decide (pyLen (pyGet options "tag") > 32) then
    false
  else
    true

/-- The three host-supplied configuration layers consulted by option
resolution, in precedence order: explicit per-call keyword overrides,
the alternative-named configuration block, and the module's own named
configuration block. -/
structure ConfigSources where
  perCallOverrides : PyDict
  altConfig : PyDict
  namedConfig : PyDict
  deriving Repr

/-- Modelled from the spec: `salt.returners.get_returner_options` (host
library, not part of this repository's sources) resolves each requested
attribute through the precedence chain per-call overrides, then the
alternative configuration block, then the module's named configuration
block, then the hard-coded defaults; keys found nowhere are omitted. -/
def resolveOption (cfg : ConfigSources) (defaults : PyDict) (k : String) : Option PyVal :=
  match lookup cfg.perCallOverrides k with
  | some v => some v
  | none =>
    match lookup cfg.altConfig k with
    | some v => some v
    | none =>
      match lookup cfg.namedConfig k with
      | some v => some v
      | none => lookup defaults k

/-- Modelled from the spec: the dict `get_returner_options` returns,
binding each requested attribute that resolves to a value. -/
def get_returner_options (attrs : List String) (cfg : ConfigSources)
    (defaults : PyDict) : PyDict :=
  attrs.filterMap (fun k => (resolveOption cfg defaults k).map (fun v => (k, v)))

/-- `_get_options` from src/_returners/logging.py lines 82-108: the
defaults dict and the attrs dict are literal transcriptions of the
source (the source's attrs dict maps each option name to the identical
configuration attribute name, so it is carried here as the key list). -/
def _get_options (cfg : ConfigSources) : PyDict :=
  let defaults : PyDict :=
    [("level", pyStr "INFO"),
     ("facility", pyStr "LOG_USER"),
     ("remote_port", pyInt 514),
     ("remote_ip", pyStr "127.0.0.1"),
     ("options", pyStrList [])]
  let attrs : List String :=
    ["level", "facility", "tag", "remote_ip", "remote_port", "options"]
  get_returner_options attrs cfg defaults

/-- CPython logging numeric-level-to-name mapping. -/
def levelToName : List (Int × String) :=
  [(50, "CRITICAL"), (40, "ERROR"), (30, "WARNING"),
   (20, "INFO"), (10, "DEBUG"), (0, "NOTSET")]

/-- CPython logging name-to-numeric-level mapping. -/
def nameToLevel : List (String × Int) :=
  [("CRITICAL", 50), ("FATAL", 50), ("ERROR", 40), ("WARN", 30),
   ("WARNING", 30), ("INFO", 20), ("DEBUG", 10), ("NOTSET", 0)]

/-- Python `str(v)` for the values needed by `getLevelName`'s fallback. -/
def pyStrOf : PyVal → String
  | pyInt n => toString n
  | pyStr s => s
  | pyBool true => "True"
  | pyBool false => "False"
  | pyNone => "None"
  | pyStrList l => toString l

/-- CPython `logging.getLevelName(level)` (host standard library):
a known numeric level maps to its name, a known name maps to its
numeric level, anything else falls back to the string `Level <level>`.
A Python bool compares equal to 0 or 1 in the dict lookup.  (An
unhashable level would raise inside CPython; the module only ever
passes the configured level value, a string or an int.) -/
def getLevelName (level : PyVal) : PyVal :=
  match level with
  | pyInt n =>
    match levelToName.find? (fun p => p.fst == n) with
    | some p => pyStr p.snd
    | none => pyStr ("Level " ++ toString n)
  | pyStr s =>
    match nameToLevel.find? (fun p => p.fst == s) with
    | some p => pyInt p.snd
    | none => pyStr ("Level " ++ s)
  | pyBool b =>
    match levelToName.find? (fun p => p.fst == (if b then (1 : Int) else 0)) with
    | some p => pyStr p.snd
    | none => pyStr ("Level " ++ (if b then "True" else "False"))
  | v => pyStr ("Level " ++ pyStrOf v)

/-- The job-result payload handed to `returner`: an opaque structured
value, modelled as a JSON-like tree (the module imposes no schema and
only serializes it). -/
inductive Json where
  | jNull : Json
  | jBool : Bool → Json
  | jInt : Int → Json
  | jStr : String → Json
  | jArr : List Json → Json
  | jObj : List (String × Json) → Json

/-- One hexadecimal digit (lowercase), as CPython's json escaper emits. -/
def hexDigitChar (n : Nat) : Char :=
  if n < 10 then Char.ofNat (48 + n) else Char.ofNat (87 + n)

/-- Four hex digits of a code point, for `\uXXXX` escapes. -/
def toHex4 (n : Nat) : String :=
  String.mk [hexDigitChar (n / 4096 % 16), hexDigitChar (n / 256 % 16),
             hexDigitChar (n / 16 % 16), hexDigitChar (n % 16)]

/-- How CPython `json.dumps` (with its default `ensure_ascii=True`)
escapes one character inside a JSON string. -/
def jsonEscapeChar (c : Char) : String :=
  if c = Char.ofNat 34 then "\\\""
  else if c = Char.ofNat 92 then "\\\\"
  else if c = Char.ofNat 10 then "\\n"
  else if c = Char.ofNat 9 then "\\t"
  else if c = Char.ofNat 13 then "\\r"
  else if c.toNat = 8 then "\\b"
  else if c.toNat = 12 then "\\f"
  else if c.toNat < 32 || c.toNat > 126 then "\\u" ++ toHex4 c.toNat
  else String.singleton c

/-- Escape a whole string for a JSON string literal. -/
def jsonEscapeString (s : String) : String :=
  String.join (s.toList.map jsonEscapeChar)

mutual

/-- `salt.utils.json.dumps` (host library, a thin wrapper over CPython
`json.dumps` with its default separators and `ensure_ascii=True`). -/
def dumps : Json → String
  | Json.jNull => "null"
  | Json.jBool true => "true"
  | Json.jBool false => "false"
  | Json.jInt n => toString n
  | Json.jStr s => "\"" ++ jsonEscapeString s ++ "\""
  | Json.jArr xs => "[" ++ dumpsArr xs ++ "]"
  | Json.jObj kvs => "\x7b" ++ dumpsObj kvs ++ "\x7d"

/-- Comma-separated serialization of a JSON array's elements. -/
def dumpsArr : List Json → String
  | [] => ""
  | [x] => dumps x
  | x :: xs => dumps x ++ ", " ++ dumpsArr xs

/-- Comma-separated serialization of a JSON object's bindings. -/
def dumpsObj : List (String × Json) → String
  | [] => ""
  | [(k, v)] => "\"" ++ jsonEscapeString k ++ "\": " ++ dumps v
  | (k, v) :: kvs =>
    "\"" ++ jsonEscapeString k ++ "\": " ++ dumps v ++ ", " ++ dumpsObj kvs

end

/-- The observable calls `returner` makes into the host logging library,
in order.  `newSysLogHandler ip port` is the construction of a fresh
`logging.handlers.SysLogHandler` addressed at `(ip, port)`. -/
inductive Effect where
  | getLogger : String → Effect
  | setLevel : PyVal → Effect
  | newSysLogHandler : PyVal → PyVal → Effect
  | addHandler : Effect
  | logRecord : PyVal → String → Effect
  deriving DecidableEq, Repr

/-- `returner` from src/_returners/logging.py lines 142-163, embedded as
the trace of host-logging calls one invocation performs.  It resolves
options, returns silently (an empty trace, no exception: the function is
total) when validation fails, and otherwise acquires the logger named
`Salt-Master`, sets its level, constructs and attaches a fresh syslog
handler addressed at `(remote_ip, remote_port)`, and logs the
JSON-serialized record at the resolved level.  The function holds no
state: each call builds its trace, and its handler, from scratch. -/
def returner (cfg : ConfigSources) (ret : Json) : List Effect :=
  let _options := _get_options cfg
  if !(_verify_options _options) then
    []
  else
    let remote_ip := pyGet _options "remote_ip"
    let remote_port := pyGet _options "remote_port"
    let level := getLevelName (pyGet _options "level")
    [Effect.getLogger "Salt-Master",
     Effect.setLevel level,
     Effect.newSysLogHandler remote_ip remote_port,
     Effect.addHandler,
     Effect.logRecord level (dumps ret)]

/-- How many syslog handlers a trace constructs. -/
def countHandlerCreations (es : List Effect) : Nat :=
  (es.filter (fun e =>
    match e with
    | Effect.newSysLogHandler _ _ => true
    | _ => false)).length

/-- `prep_jid` from src/_returners/logging.py lines 165-170.
`gen_jid` stands for the host's id generator
`salt.utils.jid.gen_jid(__opts__)`, passed in as a collaborator. -/
def prep_jid (gen_jid : Unit → PyVal) (nocache : Bool) (passed_jid : PyVal) : PyVal :=
  if passed_jid ≠ PyVal.pyNone then passed_jid else gen_jid ()

/-- `save_load` from src/_returners/logging.py lines 172-175: a no-op
that implicitly returns `None`. -/
def save_load (jid : PyVal) (load : Json) (minions : PyVal) : PyVal :=
  PyVal.pyNone

/-- `get_load` from src/_returners/logging.py lines 177-179: builds and
returns an empty dict, ignoring `jid`. -/
def get_load (jid : PyVal) : PyDict :=
  []

/-- The outcome of the module's load-time availability gate: either the
tuple `(False, reason)` or the module's virtual name. -/
inductive VirtualResult where
  | unavailable : String → VirtualResult
  | available : String → VirtualResult
  deriving DecidableEq, Repr

/-- `__virtualname__` from src/_returners/logging.py line 79. -/
def virtualname : String := "logging"

/-- `__virtual__` from src/_returners/logging.py lines 136-139,
parameterized by `HAS_LOGGING` (lines 64-69: whether the try-import of
the host's `logging` facility succeeded). -/
def virtualGate (HAS_LOGGING : Bool) : VirtualResult :=
  if !HAS_LOGGING then
    VirtualResult.unavailable "Could not import logging returner; logging is not installed."
  else
    VirtualResult.available virtualname

/-! Helper lemmas. -/

/-- Looking a key up past a binding with a different key. -/
theorem lookup_cons_ne (a : String) (v : PyVal) (d : PyDict) (k : String)
    (h : a ≠ k) : lookup ((a, v) :: d) k = lookup d k := by
  have hb : (((a, v) : String × PyVal).fst == k) = false := by
    simpa using h
  simp [lookup, List.find?_cons, hb]

/-- Option resolution binds no key outside its requested attribute list. -/
theorem lookup_resolved_not_mem (attrs : List String) (cfg : ConfigSources)
    (defaults : PyDict) (k : String) (h : k ∉ attrs) :
    lookup (get_returner_options attrs cfg defaults) k = Option.none := by
  induction attrs with
  | nil => rfl
  | cons a rest ih =>
    have hne : a ≠ k := by
      intro he
      exact h (he ▸ List.mem_cons_self a rest)
    have hrest : k ∉ rest := fun hm => h (List.mem_cons_of_mem _ hm)
    cases hr : resolveOption cfg defaults a with
    | none =>
      have hstep : get_returner_options (a :: rest) cfg defaults
          = get_returner_options rest cfg defaults := by
        simp [get_returner_options, List.filterMap_cons, hr]
      rw [hstep]
      exact ih hrest
    | some v =>
      have hstep : get_returner_options (a :: rest) cfg defaults
          = (a, v) :: get_returner_options rest cfg defaults := by
        simp [get_returner_options, List.filterMap_cons, hr]
      rw [hstep, lookup_cons_ne a v _ k hne]
      exact ih hrest

/-- A tag entry that is not a string, or is a string longer than 32
characters, makes `_verify_options` return `False`. -/
theorem verify_false_of_bad_tag (opts : PyDict) (t : PyVal)
    (h : lookup opts "tag" = some t)
    (hbad : isInstanceStr t = false ∨ ∃ s, t = pyStr s ∧ 32 < s.length) :
    _verify_options opts = false := by
  have hk : hasKey opts "tag" = true := by simp [hasKey, h]
  have hg : pyGet opts "tag" = t := by simp [pyGet, h]
  unfold _verify_options
  rcases hbad with hb | ⟨s, rfl, hs⟩
  · split
    · rfl
    · simp [hk, hg, hb]
  · split
    · rfl
    · simp [hk, hg, isInstanceStr, pyLen, hs]

/-! Claim theorems. -/

/-- C4: when neither per-call overrides nor any host configuration supply
values, `_get_options` yields exactly the documented defaults: level
`INFO`, facility `LOG_USER`, remote_ip `127.0.0.1`, remote_port `514`
(plus the empty `options` list; no `tag` is produced, having no
default). -/
theorem default_option_resolution :
    _get_options ⟨[], [], []⟩ =
      [("level", pyStr "INFO"), ("facility", pyStr "LOG_USER"),
       ("remote_ip", pyStr "127.0.0.1"), ("remote_port", pyInt 514),
       ("options", pyStrList [])] := by
  decide

/-- C1 (code bug): an options dict whose `remote_port` is not an integer
nevertheless passes `_verify_options` — the port sanity check inspects
the key `port`, which option resolution never produces — and `returner`
proceeds to construct a syslog handler and attempt delivery. -/
theorem remote_port_not_validated :
    _verify_options [("remote_port", pyStr "not-a-port")] = true ∧
    countHandlerCreations
      (returner ⟨[("remote_port", pyStr "not-a-port")], [], []⟩ (Json.jObj [])) = 1 := by
  decide

/-- C2: any options dict with a `tag` entry that is not a string, or is a
string longer than 32 characters, fails validation; and whenever the
resolved options carry such a tag, `returner` performs no effects at
all for that call. -/
theorem tag_validation_blocks_delivery :
    (∀ (opts : PyDict) (t : PyVal), lookup opts "tag" = some t →
      (isInstanceStr t = false ∨ ∃ s, t = pyStr s ∧ 32 < s.length) →
      _verify_options opts = false) ∧
    (∀ (cfg : ConfigSources) (ret : Json) (t : PyVal),
      lookup (_get_options cfg) "tag" = some t →
      (isInstanceStr t = false ∨ ∃ s, t = pyStr s ∧ 32 < s.length) →
      returner cfg ret = []) := by
  refine ⟨verify_false_of_bad_tag, ?_⟩
  intro cfg ret t h hbad
  have hv := verify_false_of_bad_tag _ t h hbad
  simp [returner, hv]

/-- C2 witness: a 36-character tag suppresses delivery. -/
theorem tag_validation_blocks_delivery_witness :
    returner ⟨[("tag", pyStr "abcdefghijklmnopqrstuvwxyz0123456789")], [], []⟩
      (Json.jObj []) = [] :=
  tag_validation_blocks_delivery.2 _ _
    (pyStr "abcdefghijklmnopqrstuvwxyz0123456789") (by decide)
    (Or.inr ⟨_, rfl, by decide⟩)

/-- C3: whenever validation of the resolved options fails, `returner`
performs no effects — no logger acquisition, no handler, no emission —
and, being a total function, raises nothing. -/
theorem invalid_options_silent_skip (cfg : ConfigSources) (ret : Json)
    (h : _verify_options (_get_options cfg) = false) :
    returner cfg ret = [] := by
  simp [returner, h]

/-- C3 witness: an integer tag yields silent non-delivery. -/
theorem invalid_options_silent_skip_witness :
    returner ⟨[("tag", pyInt 7)], [], []⟩ (Json.jObj []) = [] :=
  invalid_options_silent_skip _ _ (by decide)

/-- C5: whenever the resolved options pass validation, a call to
`returner` performs exactly: acquire the logger named `Salt-Master`, set
its level to the resolved level, construct a fresh syslog handler
addressed at `(remote_ip, remote_port)`, attach it, and emit the
JSON-serialized record at the resolved level — with exactly one handler
constructed per call (the trace is rebuilt from scratch on every call;
nothing is cached across calls). -/
theorem returner_delivery_sequence (cfg : ConfigSources) (ret : Json)
    (h : _verify_options (_get_options cfg) = true) :
    returner cfg ret =
      [Effect.getLogger "Salt-Master",
       Effect.setLevel (getLevelName (pyGet (_get_options cfg) "level")),
       Effect.newSysLogHandler (pyGet (_get_options cfg) "remote_ip")
         (pyGet (_get_options cfg) "remote_port"),
       Effect.addHandler,
       Effect.logRecord (getLevelName (pyGet (_get_options cfg) "level"))
         (dumps ret)] ∧
    countHandlerCreations (returner cfg ret) = 1 := by
  have h5 : returner cfg ret =
      [Effect.getLogger "Salt-Master",
       Effect.setLevel (getLevelName (pyGet (_get_options cfg) "level")),
       Effect.newSysLogHandler (pyGet (_get_options cfg) "remote_ip")
         (pyGet (_get_options cfg) "remote_port"),
       Effect.addHandler,
       Effect.logRecord (getLevelName (pyGet (_get_options cfg) "level"))
         (dumps ret)] := by
    simp [returner, h]
  exact ⟨h5, by rw [h5]; rfl⟩

/-- C5 witness: delivery under the default options. -/
theorem returner_delivery_sequence_witness :
    returner ⟨[], [], []⟩ (Json.jObj []) =
      [Effect.getLogger "Salt-Master",
       Effect.setLevel (getLevelName (pyGet (_get_options ⟨[], [], []⟩) "level")),
       Effect.newSysLogHandler (pyGet (_get_options ⟨[], [], []⟩) "remote_ip")
         (pyGet (_get_options ⟨[], [], []⟩) "remote_port"),
       Effect.addHandler,
       Effect.logRecord (getLevelName (pyGet (_get_options ⟨[], [], []⟩) "level"))
         (dumps (Json.jObj []))] ∧
    countHandlerCreations (returner ⟨[], [], []⟩ (Json.jObj [])) = 1 :=
  returner_delivery_sequence ⟨[], [], []⟩ (Json.jObj []) (by decide)

/-- C6: an options dict with neither a `port` nor a `tag` key passes
validation; on dicts without a `port` key the verdict depends on the
`tag` entry alone; and option resolution never produces a `port` key. -/
theorem verify_ignores_resolved_port :
    (∀ opts : PyDict, lookup opts "port" = Option.none →
      lookup opts "tag" = Option.none → _verify_options opts = true) ∧
    (∀ o1 o2 : PyDict, lookup o1 "port" = Option.none →
      lookup o2 "port" = Option.none → lookup o1 "tag" = lookup o2 "tag" →
      _verify_options o1 = _verify_options o2) ∧
    (∀ cfg : ConfigSources, lookup (_get_options cfg) "port" = Option.none) := by
  refine ⟨?_, ?_, ?_⟩
  · intro opts h1 h2
    simp [_verify_options, hasKey, h1, h2]
  · intro o1 o2 h1 h2 htag
    simp [_verify_options, hasKey, pyGet, h1, h2, htag]
  · intro cfg
    exact lookup_resolved_not_mem _ cfg _ "port" (by decide)

/-- C6 witness: a string-valued `remote_port` with no tag passes
validation. -/
theorem verify_ignores_resolved_port_witness :
    _verify_options [("remote_port", pyStr "oops"), ("level", pyStr "INFO")] = true :=
  verify_ignores_resolved_port.1 _ (by decide) (by decide)

/-- C7: `prep_jid` returns `passed_jid` unchanged whenever one is
provided (a presence check, not a format check), and otherwise returns
the host id generator's value; it does nothing else. -/
theorem prep_jid_passthrough :
    (∀ (gen : Unit → PyVal) (nocache : Bool) (j : PyVal),
      j ≠ PyVal.pyNone → prep_jid gen nocache j = j) ∧
    (∀ (gen : Unit → PyVal) (nocache : Bool),
      prep_jid gen nocache PyVal.pyNone = gen ()) := by
  constructor
  · intro gen nc j h
    simp [prep_jid, h]
  · intro gen nc
    simp [prep_jid]

/-- C7 witness: a provided jid passes through unchanged. -/
theorem prep_jid_passthrough_witness :
    prep_jid (fun _ => pyStr "20170101000000000000") false (pyStr "abc123")
      = pyStr "abc123" :=
  prep_jid_passthrough.1 _ false _ (by decide)

/-- C8: the passthrough test is exactly `is not None`: every non-None
`passed_jid` — including falsy values such as the empty string or 0 —
is returned itself, with the result independent of the generator (it is
never consulted); the generator's value is returned only for `None`. -/
theorem prep_jid_none_check_exact :
    (∀ (g1 g2 : Unit → PyVal) (nocache : Bool) (j : PyVal),
      j ≠ PyVal.pyNone →
      prep_jid g1 nocache j = j ∧ prep_jid g1 nocache j = prep_jid g2 nocache j) ∧
    (∀ (gen : Unit → PyVal) (nocache : Bool),
      prep_jid gen nocache PyVal.pyNone = gen ()) := by
  constructor
  · intro g1 g2 nc j h
    constructor
    · simp [prep_jid, h]
    · simp [prep_jid, h]
  · intro gen nc
    simp [prep_jid]

/-- C8 witness: the falsy empty string is still passed through, under
two different generators. -/
theorem prep_jid_none_check_exact_witness :
    prep_jid (fun _ => pyStr "G1") false (pyStr "") = pyStr "" ∧
    prep_jid (fun _ => pyStr "G1") false (pyStr "")
      = prep_jid (fun _ => pyStr "G2") false (pyStr "") :=
  prep_jid_none_check_exact.1 _ _ false _ (by decide)

/-- C9: `get_load` returns an empty dict for every jid. -/
theorem get_load_empty : ∀ jid : PyVal, get_load jid = [] :=
  fun _ => rfl

/-- C10: when the host logging facility cannot be imported the
availability gate returns failure with a descriptive reason; otherwise
it returns the module's virtual name. -/
theorem virtual_availability_gate :
    virtualGate false =
      VirtualResult.unavailable
        "Could not import logging returner; logging is not installed." ∧
    virtualGate true = VirtualResult.available "logging" := by
  decide
